import Mathlib

/-!
Verification of the clip-composition pipeline of the smv_creator repository
(`src/core/video_generator.py`, class `VideoGenerator`), as a shallow
embedding.  Clips are modelled at the level the Python code itself reasons
about them: a pixel size (the moviepy `size` attribute, which every
operation used by the pipeline preserves: `fl`, `fl_image`, `set_mask`,
`set_position`, and `resize`/`rotate` with a time-dependent argument all
copy the attribute), a duration, the letterbox placement computed by
`_resize_clip`, and the ordered list of moviepy operations appended by the
effect / overlay / transition stages.  The time-dependent numeric formulas
inside those operations (zoom scale, wipe progress, rotation angle, fade
factor) are translated verbatim into named functions below.
-/

/-- One moviepy operation appended to a clip by the pipeline.  Each
constructor corresponds to exactly one branch of `_apply_effect`,
`_apply_start_transition`, `_apply_end_transition` or
`_apply_overlay_effect`; the time-dependent formulas the operations carry
are defined separately (`zoomInScale`, `wipeOutProgress`, ...). -/
inductive VideoOp where
  | fadein (d : Rat)
  | fadeout (d : Rat)
  | slideIn (side : String) (d : Rat)
  | slideOut (side : String) (d : Rat)
  | zoomInResize (d : Rat)
  | expandResize (d : Rat)
  | wipeInMask (side : String) (d : Rat)
  | rotateIn (d : Rat)
  | zoomOutResize (clipDur d : Rat)
  | shrinkResize (clipDur d : Rat)
  | wipeOutMask (side : String) (clipDur d : Rat)
  | rotateOut (clipDur d : Rat)
  | effectZoomIn
  | effectZoomOut
  | scroll (dx dy : Int)
  | colorx (factor : Rat)
  | lumContrast (lum contrast contrastThr : Rat)
  | blackwhite
  | gaussianBlur (radius : Rat)
  | brightnessPulse
  | vignetteFilter
  | mirrorX
  | mirrorY
  | rotateEffect (degPerSec : Rat)
  | overlay (name : String) (text : String)
deriving DecidableEq

/-- A clip as the pipeline sees it: the moviepy `size` attribute
(`width`, `height`), the letterbox placement of the source image inside
the canvas (`innerX`, `innerY`, `innerW`, `innerH`, filled in by
`_resize_clip`), the duration (0 while still unset, Python `None`), and
the operations applied so far. -/
structure Clip where
  width : Nat
  height : Nat
  innerX : Nat := 0
  innerY : Nat := 0
  innerW : Nat := 0
  innerH : Nat := 0
  duration : Rat := 0
  ops : List VideoOp := []
deriving DecidableEq

/-- One entry of the slideshow sequence (`src/core/image_item.py`), with
the default values of the `ImageItem` constructor.  `origW`/`origH` are
the pixel size of the decoded source image (obtained from the file via
PIL / `ImageClip` in the code); `overlayEffect`/`overlayText` are the
attributes the GUI sets dynamically (guarded by `hasattr` in
`_create_image_clip`). -/
structure ImageItem where
  filepath : String
  origW : Nat := 1920
  origH : Nat := 1080
  duration : Rat := 3
  startTransition : String := "Fade In"
  startDuration : Rat := 1
  endTransition : String := "Fade Out"
  endDuration : Rat := 1
  effect : String := "None"
  overlayEffect : String := "None"
  overlayText : String := ""
deriving DecidableEq

/-- Runtime outcome of the fallible library calls made while building one
clip in `_create_image_clip`.  The first four are the fatal stages (file
check, PIL decode, moviepy load, resize); the last four say whether the
corresponding cosmetic stage raised (its `try` body failed), in which
case the code keeps the clip from before that stage. -/
structure BuildEnv where
  fileExists : Bool := true
  pilOk : Bool := true
  moviepyOk : Bool := true
  resizeOk : Bool := true
  effectFails : Bool := false
  overlayFails : Bool := false
  startFails : Bool := false
  endFails : Bool := false
deriving DecidableEq

/-- Runtime environment of one `generate_video` call: the per-image build
outcomes, whether concatenation and the encoder write succeed, and the
state of the output path (non-empty file present) as observed after the
write attempt, respectively when the write step was never reached (the
pre-existing, stale state). -/
structure RenderEnv where
  builds : Nat → BuildEnv
  concatOk : Bool := true
  writeOk : Bool := true
  fileNonEmptyAfterWrite : Bool := true
  staleFileNonEmpty : Bool := false

/-- The `aspect_ratios` dict of `VideoGenerator.__init__`. -/
def aspectRatios (a : String) : Option (Nat × Nat) :=
  if a = "16:9" then some (1920, 1080)
  else if a = "9:16" then some (1080, 1920)
  else if a = "4:3" then some (1440, 1080)
  else none

/-- The `quality_presets` dict of `VideoGenerator.__init__` (kbps). -/
def qualityPresets (q : String) : Option Nat :=
  if q = "Low" then some 1000
  else if q = "Medium" then some 2000
  else if q = "High" then some 5000
  else if q = "Very High" then some 10000
  else none

/-- `self.aspect_ratios.get(aspect_ratio, (1920, 1080))` in
`generate_video`. -/
def dimensionsFor (a : String) : Nat × Nat :=
  (aspectRatios a).getD (1920, 1080)

/-- Python `min` on two rationals (ties keep the first argument), as
used by `_resize_clip` and the transition formulas; written out so that
it evaluates by kernel reduction. -/
def rmin (a b : Rat) : Rat := if a ≤ b then a else b

/-- Python `max` on two rationals (ties keep the first argument). -/
def rmax (a b : Rat) : Rat := if b ≤ a then a else b

/-- The scale factor computed by `_resize_clip`:
`min(width/orig_width, height/orig_height)`. -/
def resizeScale (origW origH w h : Nat) : Rat :=
  rmin ((w : Rat) / (origW : Rat)) ((h : Rat) / (origH : Rat))

/-- `int(orig_width * scale_factor)` in `_resize_clip` (truncation of a
non-negative value, hence the floor). -/
def scaledDim (orig : Nat) (scale : Rat) : Nat :=
  ((orig : Rat) * scale).floor.toNat

/-- `_resize_clip`: scale the source to fit, then composite it centred
onto a black `ColorClip` background of exactly the target size.  The
moviepy `CompositeVideoClip` takes the size of its first clip, the
background, so the result has size exactly `(w, h)`. -/
def resizeClip (c : Clip) (w h : Nat) : Clip :=
  let scale := resizeScale c.width c.height w h
  let newW := scaledDim c.width scale
  let newH := scaledDim c.height scale
  { width := w, height := h,
    innerX := (w - newW) / 2, innerY := (h - newH) / 2,
    innerW := newW, innerH := newH,
    duration := c.duration, ops := c.ops }

/-- The effect names with a branch in `_apply_effect`. -/
def supportedEffects : List String :=
  ["Zoom In", "Zoom Out", "Pan Left to Right", "Pan Right to Left",
   "Pan Top to Bottom", "Pan Bottom to Top", "Sepia", "Grayscale",
   "Blur", "Brightness Pulse", "Color Boost", "Vignette",
   "Mirror X", "Mirror Y", "Rotate Clockwise", "Rotate Counter-Clockwise"]

/-- The transition names with a branch in `_apply_start_transition`. -/
def supportedStartTransitions : List String :=
  ["Fade In", "Slide In Left", "Slide In Right", "Slide In Top",
   "Slide In Bottom", "Zoom In", "Expand", "Wipe In Left",
   "Wipe In Right", "Wipe In Top", "Wipe In Bottom", "Rotate In"]

/-- The transition names with a branch in `_apply_end_transition`. -/
def supportedEndTransitions : List String :=
  ["Fade Out", "Slide Out Left", "Slide Out Right", "Slide Out Top",
   "Slide Out Bottom", "Zoom Out", "Shrink", "Wipe Out Left",
   "Wipe Out Right", "Wipe Out Top", "Wipe Out Bottom", "Rotate Out"]

/-- The `supported_overlays` list of `_apply_overlay_effect`. -/
def supportedOverlays : List String :=
  ["Watermark", "Text Caption", "Border", "Frame",
   "Vintage", "Dust and Scratches", "Film Grain",
   "Sepia Tone", "Black and White", "Film Noir",
   "Animated Particles", "Dynamic Text", "Animated Gradient",
   "Animated Frame"]

/-- `_apply_effect`: the elif cascade on the effect name; the final else
returns the clip unchanged.  Sepia appends two operations
(`colorx 1.5` then `lum_contrast 0 0.3 0.6`), exactly as the code chains
two `fx` calls. -/
def applyEffect (c : Clip) (effectType : String) : Clip :=
  if effectType = "Zoom In" then { c with ops := c.ops ++ [.effectZoomIn] }
  else if effectType = "Zoom Out" then { c with ops := c.ops ++ [.effectZoomOut] }
  else if effectType = "Pan Left to Right" then
    { c with ops := c.ops ++ [.scroll (c.width : Int) 0] }
  else if effectType = "Pan Right to Left" then
    { c with ops := c.ops ++ [.scroll (-(c.width : Int)) 0] }
  else if effectType = "Pan Top to Bottom" then
    { c with ops := c.ops ++ [.scroll 0 (c.height : Int)] }
  else if effectType = "Pan Bottom to Top" then
    { c with ops := c.ops ++ [.scroll 0 (-(c.height : Int))] }
  else if effectType = "Sepia" then
    { c with ops := c.ops ++ [.colorx (3/2), .lumContrast 0 (3/10) (3/5)] }
  else if effectType = "Grayscale" then { c with ops := c.ops ++ [.blackwhite] }
  else if effectType = "Blur" then { c with ops := c.ops ++ [.gaussianBlur 2] }
  else if effectType = "Brightness Pulse" then
    { c with ops := c.ops ++ [.brightnessPulse] }
  else if effectType = "Color Boost" then
    { c with ops := c.ops ++ [.colorx (3/2)] }
  else if effectType = "Vignette" then
    { c with ops := c.ops ++ [.vignetteFilter] }
  else if effectType = "Mirror X" then { c with ops := c.ops ++ [.mirrorX] }
  else if effectType = "Mirror Y" then { c with ops := c.ops ++ [.mirrorY] }
  else if effectType = "Rotate Clockwise" then
    { c with ops := c.ops ++ [.rotateEffect 15] }
  else if effectType = "Rotate Counter-Clockwise" then
    { c with ops := c.ops ++ [.rotateEffect (-15)] }
  else c

/-- `_apply_start_transition`: the elif cascade on the transition name;
the final else returns the clip unchanged. -/
def applyStartTransition (c : Clip) (transitionType : String) (d : Rat) : Clip :=
  if transitionType = "Fade In" then { c with ops := c.ops ++ [.fadein d] }
  else if transitionType = "Slide In Left" then
    { c with ops := c.ops ++ [.slideIn "left" d] }
  else if transitionType = "Slide In Right" then
    { c with ops := c.ops ++ [.slideIn "right" d] }
  else if transitionType = "Slide In Top" then
    { c with ops := c.ops ++ [.slideIn "top" d] }
  else if transitionType = "Slide In Bottom" then
    { c with ops := c.ops ++ [.slideIn "bottom" d] }
  else if transitionType = "Zoom In" then
    { c with ops := c.ops ++ [.zoomInResize d] }
  else if transitionType = "Expand" then
    { c with ops := c.ops ++ [.expandResize d] }
  else if transitionType = "Wipe In Left" then
    { c with ops := c.ops ++ [.wipeInMask "left" d] }
  else if transitionType = "Wipe In Right" then
    { c with ops := c.ops ++ [.wipeInMask "right" d] }
  else if transitionType = "Wipe In Top" then
    { c with ops := c.ops ++ [.wipeInMask "top" d] }
  else if transitionType = "Wipe In Bottom" then
    { c with ops := c.ops ++ [.wipeInMask "bottom" d] }
  else if transitionType = "Rotate In" then
    { c with ops := c.ops ++ [.rotateIn d] }
  else c

/-- `_apply_end_transition`: the elif cascade on the transition name; the
final else returns the clip unchanged.  The end-anchored operations close
over `clip.duration`, exactly as the Python closures do. -/
def applyEndTransition (c : Clip) (transitionType : String) (d : Rat) : Clip :=
  if transitionType = "Fade Out" then { c with ops := c.ops ++ [.fadeout d] }
  else if transitionType = "Slide Out Left" then
    { c with ops := c.ops ++ [.slideOut "left" d] }
  else if transitionType = "Slide Out Right" then
    { c with ops := c.ops ++ [.slideOut "right" d] }
  else if transitionType = "Slide Out Top" then
    { c with ops := c.ops ++ [.slideOut "top" d] }
  else if transitionType = "Slide Out Bottom" then
    { c with ops := c.ops ++ [.slideOut "bottom" d] }
  else if transitionType = "Zoom Out" then
    { c with ops := c.ops ++ [.zoomOutResize c.duration d] }
  else if transitionType = "Shrink" then
    { c with ops := c.ops ++ [.shrinkResize c.duration d] }
  else if transitionType = "Wipe Out Left" then
    { c with ops := c.ops ++ [.wipeOutMask "left" c.duration d] }
  else if transitionType = "Wipe Out Right" then
    { c with ops := c.ops ++ [.wipeOutMask "right" c.duration d] }
  else if transitionType = "Wipe Out Top" then
    { c with ops := c.ops ++ [.wipeOutMask "top" c.duration d] }
  else if transitionType = "Wipe Out Bottom" then
    { c with ops := c.ops ++ [.wipeOutMask "bottom" c.duration d] }
  else if transitionType = "Rotate Out" then
    { c with ops := c.ops ++ [.rotateOut c.duration d] }
  else c

/-- `_apply_overlay_effect`: returns the clip unchanged for `"None"`, the
empty string (Python falsiness) and any name outside
`supported_overlays`; otherwise applies the per-name compositing pass
(one `fl`/`fl_image` wrapper per branch, here recorded as a single
`overlay` operation carrying the name and text). -/
def applyOverlayEffect (c : Clip) (overlayType : String) (text : String) : Clip :=
  if overlayType = "None" then c
  else if overlayType = "" then c
  else if overlayType ∈ supportedOverlays then
    { c with ops := c.ops ++ [.overlay overlayType text] }
  else c

/-- The effect block of `_create_image_clip`: run only when the name is
not "None"; when its `try` body raises, the code logs and keeps the clip
from before the stage. -/
def effectStage (b : BuildEnv) (item : ImageItem) (c : Clip) : Clip :=
  if item.effect = "None" then c
  else if b.effectFails then c
  else applyEffect c item.effect

/-- The overlay block of `_create_image_clip` (same skip-on-failure
shape; the `hasattr` guard is modelled as the attribute being present). -/
def overlayStage (b : BuildEnv) (item : ImageItem) (c : Clip) : Clip :=
  if item.overlayEffect = "None" then c
  else if b.overlayFails then c
  else applyOverlayEffect c item.overlayEffect item.overlayText

/-- The start-transition block of `_create_image_clip`. -/
def startStage (b : BuildEnv) (item : ImageItem) (c : Clip) : Clip :=
  if item.startTransition = "None" then c
  else if b.startFails then c
  else applyStartTransition c item.startTransition item.startDuration

/-- The end-transition block of `_create_image_clip`. -/
def endStage (b : BuildEnv) (item : ImageItem) (c : Clip) : Clip :=
  if item.endTransition = "None" then c
  else if b.endFails then c
  else applyEndTransition c item.endTransition item.endDuration

/-- The successful path of `_create_image_clip`: load at the source pixel
size, letterbox via `_resize_clip`, `set_duration`, then the four
cosmetic stages in source order. -/
def buildPipeline (b : BuildEnv) (item : ImageItem) (w h : Nat) : Clip :=
  let c1 := resizeClip { width := item.origW, height := item.origH } w h
  let c2 := { c1 with duration := item.duration }
  endStage b item (startStage b item (overlayStage b item (effectStage b item c2)))

/-- `_create_image_clip`: the per-image pipeline.  The four fatal stages
(file check, PIL decode, moviepy load, resize) raise, which the broad
handler at the end of the method rewraps as `Error processing image:`;
the cosmetic stages never fail the build. -/
def createImageClip (b : BuildEnv) (item : ImageItem) (w h : Nat) :
    Except String Clip :=
  if !b.fileExists then
    .error ("Error processing image: Image file not found: " ++ item.filepath)
  else if !b.pilOk then
    .error "Error processing image: Error processing image with PIL"
  else if !b.moviepyOk then
    .error "Error processing image: Error loading image with MoviePy"
  else if !b.resizeOk then
    .error "Error processing image: Error resizing clip"
  else
    .ok (buildPipeline b item w h)

/-- The clip-building loop of `generate_video` from image index `i` on:
the first clip whose build raises aborts the loop with
`Error processing image {i+1}: ...`. -/
def buildClipsFrom (builds : Nat → BuildEnv) (i : Nat)
    (items : List ImageItem) (w h : Nat) : Except String (List Clip) :=
  match items with
  | [] => .ok []
  | item :: rest =>
    match createImageClip (builds i) item w h with
    | .error e =>
      .error ("Error processing image " ++ toString (i + 1) ++ ": " ++ e)
    | .ok c =>
      match buildClipsFrom builds (i + 1) rest w h with
      | .error e => .error e
      | .ok cs => .ok (c :: cs)

/-- The whole clip-building loop of `generate_video`. -/
def buildClips (builds : Nat → BuildEnv) (items : List ImageItem)
    (w h : Nat) : Except String (List Clip) :=
  buildClipsFrom builds 0 items w h

/-- `generate_video`.  The only exception that escapes the method is the
`ValueError` for an empty image list; every other failure is caught by
the outer handler, which answers with the result of the
`os.path.exists and os.path.getsize > 0` check on the output path
(the post-write state when the write step ran, the stale pre-existing
state otherwise).  `transition_overlap` and `frame_rate` are bound but
the former is never read in the render path. -/
def generateVideo (env : RenderEnv) (items : List ImageItem)
    (outputPath : String) (aspectRatio : String) (frameRate : Nat)
    (transitionOverlap : Rat) (quality : String) : Except String Bool :=
  if items.isEmpty then .error "No images provided"
  else
    let dims := dimensionsFor aspectRatio
    let _bitrate := (qualityPresets quality).getD 5000
    match buildClips env.builds items dims.1 dims.2 with
    | .error _ => .ok env.staleFileNonEmpty
    | .ok _clips =>
      if !env.concatOk then .ok env.staleFileNonEmpty
      else if env.writeOk then .ok env.fileNonEmptyAfterWrite
      else .ok env.fileNonEmptyAfterWrite

/-- Whether the `write_videofile` block of `generate_video` is reached:
the list was non-empty, every clip built, and concatenation succeeded. -/
def reachesWrite (env : RenderEnv) (items : List ImageItem)
    (aspectRatio : String) : Bool :=
  !items.isEmpty
    && (buildClips env.builds items (dimensionsFor aspectRatio).1
          (dimensionsFor aspectRatio).2).toBool
    && env.concatOk

/-- All four fatal stages of one build succeed. -/
def fatalOk (b : BuildEnv) : Bool :=
  b.fileExists && b.pilOk && b.moviepyOk && b.resizeOk

/-- The scale factor of the "Zoom In" start transition:
`lambda t: min(1, t/duration) if t < duration else 1`. -/
def zoomInScale (d t : Rat) : Rat :=
  if t < d then rmin 1 (t / d) else 1

/-- The scale factor of the "Expand" start transition (each component of
the pair): `max(0.01, min(1, t/duration)) if t < duration else 1`. -/
def expandScale (d t : Rat) : Rat :=
  if t < d then rmax (1/100) (rmin 1 (t / d)) else 1

/-- The mask progress of the four "Wipe In" start transitions:
`min(1, t/duration)` inside the window, full mask (progress 1) after. -/
def wipeInProgress (d t : Rat) : Rat :=
  if t < d then rmin 1 (t / d) else 1

/-- The angle of the "Rotate In" start transition:
`360 * (1 - min(1, t/duration)) if t < duration else 0`. -/
def rotateInAngle (d t : Rat) : Rat :=
  if t < d then 360 * (1 - rmin 1 (t / d)) else 0

/-- The scale factor of the "Zoom Out" end transition:
`min(1, (clip_duration - t)/duration) if t > clip_duration - duration
else 1`. -/
def zoomOutScale (clipDur d t : Rat) : Rat :=
  if clipDur - d < t then rmin 1 ((clipDur - t) / d) else 1

/-- The scale factor of the "Shrink" end transition. -/
def shrinkScale (clipDur d t : Rat) : Rat :=
  if clipDur - d < t then rmax (1/100) (rmin 1 ((clipDur - t) / d)) else 1

/-- The mask progress of the four "Wipe Out" end transitions. -/
def wipeOutProgress (clipDur d t : Rat) : Rat :=
  if clipDur - d < t then rmin 1 ((clipDur - t) / d) else 1

/-- The angle of the "Rotate Out" end transition:
`360 * min(1, (t - (clip_duration - duration)) / duration)` inside the
window, 0 before it. -/
def rotateOutAngle (clipDur d t : Rat) : Rat :=
  if clipDur - d < t then 360 * rmin 1 ((t - (clipDur - d)) / d) else 0

/-- Modelled from the moviepy library (a dependency, not part of this
repository): the brightness factor of `clip.fadein(duration)`, which is
`t/duration` before `duration` and 1 afterwards. -/
def fadeinFactor (d t : Rat) : Rat :=
  if t < d then t / d else 1

/-- Modelled from the moviepy library: the brightness factor of
`clip.fadeout(duration)`, which is `(clip_duration - t)/duration` inside
the final window and 1 before it. -/
def fadeoutFactor (clipDur d t : Rat) : Rat :=
  if clipDur - t < d then (clipDur - t) / d else 1

/-- Modelled from the spec: the clamping behaviour the spec asserts for
transition windows, namely that a configured window longer than the clip
duration is replaced by the clip duration before the progress formula is
evaluated.  Stated for the "Zoom In" start transition, to be compared
with `zoomInScale`, which is what the code computes. -/
def zoomInScaleClamped (clipDur d t : Rat) : Rat :=
  zoomInScale (rmin d clipDur) t

/-- `total_steps = len(image_items) * 2 + 10` in `generate_video`. -/
def totalSteps (n : Nat) : Nat := 2 * n + 10

/-- The `current_step` values emitted during the image loop of a fully
successful render: each image triggers three unit increments of the step
counter (the "Processing image" update before the build, the "Completed
processing" update inside `_create_image_clip`, and the "Completed
processing image i+1" update after it returns). -/
def imageLoopSteps : Nat → List Nat
  | 0 => []
  | n + 1 => imageLoopSteps n ++ [3 * n + 1, 3 * n + 2, 3 * n + 3]

/-- The `current_step` values emitted on the main thread during a fully
successful `generate_video` call with `n` images, in order: the
initialisation reset to 0, the image loop, then the explicit settings to
`2n+1` (concatenating), `2n+2` (concatenation complete), `2n+3` (writing)
and `2n+10` (complete).  The background writing-progress thread only emits
values between `2n+3` and `2n+9` while the write runs and is omitted
here. -/
def mainThreadSteps (n : Nat) : List Nat :=
  0 :: (imageLoopSteps n ++
    [2 * n + 1, 2 * n + 2, 2 * n + 3, 2 * n + 10])

/-- Decidable equality of build results, so that concrete runs of the
pipeline can be checked by evaluation. -/
instance {e a : Type} [DecidableEq e] [DecidableEq a] :
    DecidableEq (Except e a) := fun x y => by
  cases x <;> cases y
  case error.error u v => exact decidable_of_iff (u = v) (by simp)
  case ok.ok u v => exact decidable_of_iff (u = v) (by simp)
  case error.ok => exact isFalse (by simp)
  case ok.error => exact isFalse (by simp)

/-! ### Helper lemmas -/

theorem rat_floor_int (q : Rat) : q.floor = ⌊q⌋ := rfl

theorem rmin_le_left (a b : Rat) : rmin a b ≤ a := by
  unfold rmin
  split_ifs with h
  · exact le_refl a
  · exact (not_le.mp h).le

theorem rmin_le_right (a b : Rat) : rmin a b ≤ b := by
  unfold rmin
  split_ifs with h
  · exact h
  · exact le_refl b

theorem le_rmin (a b c : Rat) (ha : c ≤ a) (hb : c ≤ b) : c ≤ rmin a b := by
  unfold rmin
  split_ifs <;> assumption

theorem rmax_le (a b c : Rat) (ha : a ≤ c) (hb : b ≤ c) : rmax a b ≤ c := by
  unfold rmax
  split_ifs <;> assumption

theorem le_rmax_left (a b : Rat) : a ≤ rmax a b := by
  unfold rmax
  split_ifs with h
  · exact le_refl a
  · exact (not_le.mp h).le

theorem applyEffect_fields (c : Clip) (e : String) :
    (applyEffect c e).width = c.width ∧ (applyEffect c e).height = c.height ∧
    (applyEffect c e).innerW = c.innerW ∧ (applyEffect c e).innerH = c.innerH := by
  simp only [applyEffect, apply_ite Clip.width, apply_ite Clip.height,
    apply_ite Clip.innerW, apply_ite Clip.innerH, ite_self]
  exact ⟨trivial, trivial, trivial, trivial⟩

theorem applyStartTransition_fields (c : Clip) (e : String) (d : Rat) :
    (applyStartTransition c e d).width = c.width ∧
    (applyStartTransition c e d).height = c.height ∧
    (applyStartTransition c e d).innerW = c.innerW ∧
    (applyStartTransition c e d).innerH = c.innerH := by
  simp only [applyStartTransition, apply_ite Clip.width, apply_ite Clip.height,
    apply_ite Clip.innerW, apply_ite Clip.innerH, ite_self]
  exact ⟨trivial, trivial, trivial, trivial⟩

theorem applyEndTransition_fields (c : Clip) (e : String) (d : Rat) :
    (applyEndTransition c e d).width = c.width ∧
    (applyEndTransition c e d).height = c.height ∧
    (applyEndTransition c e d).innerW = c.innerW ∧
    (applyEndTransition c e d).innerH = c.innerH := by
  simp only [applyEndTransition, apply_ite Clip.width, apply_ite Clip.height,
    apply_ite Clip.innerW, apply_ite Clip.innerH, ite_self]
  exact ⟨trivial, trivial, trivial, trivial⟩

theorem applyOverlayEffect_fields (c : Clip) (e t : String) :
    (applyOverlayEffect c e t).width = c.width ∧
    (applyOverlayEffect c e t).height = c.height ∧
    (applyOverlayEffect c e t).innerW = c.innerW ∧
    (applyOverlayEffect c e t).innerH = c.innerH := by
  simp only [applyOverlayEffect, apply_ite Clip.width, apply_ite Clip.height,
    apply_ite Clip.innerW, apply_ite Clip.innerH, ite_self]
  exact ⟨trivial, trivial, trivial, trivial⟩

theorem effectStage_fields (b : BuildEnv) (item : ImageItem) (c : Clip) :
    (effectStage b item c).width = c.width ∧
    (effectStage b item c).height = c.height ∧
    (effectStage b item c).innerW = c.innerW ∧
    (effectStage b item c).innerH = c.innerH := by
  unfold effectStage
  obtain ⟨h1, h2, h3, h4⟩ := applyEffect_fields c item.effect
  split_ifs <;> exact ⟨by simp_all, by simp_all, by simp_all, by simp_all⟩

theorem overlayStage_fields (b : BuildEnv) (item : ImageItem) (c : Clip) :
    (overlayStage b item c).width = c.width ∧
    (overlayStage b item c).height = c.height ∧
    (overlayStage b item c).innerW = c.innerW ∧
    (overlayStage b item c).innerH = c.innerH := by
  unfold overlayStage
  obtain ⟨h1, h2, h3, h4⟩ := applyOverlayEffect_fields c item.overlayEffect item.overlayText
  split_ifs <;> exact ⟨by simp_all, by simp_all, by simp_all, by simp_all⟩

theorem startStage_fields (b : BuildEnv) (item : ImageItem) (c : Clip) :
    (startStage b item c).width = c.width ∧
    (startStage b item c).height = c.height ∧
    (startStage b item c).innerW = c.innerW ∧
    (startStage b item c).innerH = c.innerH := by
  unfold startStage
  obtain ⟨h1, h2, h3, h4⟩ := applyStartTransition_fields c item.startTransition item.startDuration
  split_ifs <;> exact ⟨by simp_all, by simp_all, by simp_all, by simp_all⟩

theorem endStage_fields (b : BuildEnv) (item : ImageItem) (c : Clip) :
    (endStage b item c).width = c.width ∧
    (endStage b item c).height = c.height ∧
    (endStage b item c).innerW = c.innerW ∧
    (endStage b item c).innerH = c.innerH := by
  unfold endStage
  obtain ⟨h1, h2, h3, h4⟩ := applyEndTransition_fields c item.endTransition item.endDuration
  split_ifs <;> exact ⟨by simp_all, by simp_all, by simp_all, by simp_all⟩

theorem scaledDim_le (orig bound : Nat) (scale : Rat)
    (h : (orig : Rat) * scale ≤ (bound : Rat)) : scaledDim orig scale ≤ bound := by
  unfold scaledDim
  have h1 : ((orig : Rat) * scale).floor = ⌊(orig : Rat) * scale⌋ := rfl
  rw [h1]
  have h2 : ⌊(orig : Rat) * scale⌋ ≤ ⌊(bound : Rat)⌋ := Int.floor_le_floor h
  rw [Int.floor_natCast] at h2
  exact Int.toNat_le.mpr h2

theorem orig_mul_resizeScale_le_w (origW origH w h : Nat) :
    (origW : Rat) * resizeScale origW origH w h ≤ (w : Rat) := by
  rcases Nat.eq_zero_or_pos origW with h0 | hpos
  · simp [h0]
  · have hne : (0 : Rat) < (origW : Rat) := by exact_mod_cast hpos
    calc (origW : Rat) * resizeScale origW origH w h
        ≤ (origW : Rat) * ((w : Rat) / (origW : Rat)) := by
          exact mul_le_mul_of_nonneg_left (rmin_le_left _ _) hne.le
      _ = (w : Rat) := by field_simp

theorem orig_mul_resizeScale_le_h (origW origH w h : Nat) :
    (origH : Rat) * resizeScale origW origH w h ≤ (h : Rat) := by
  rcases Nat.eq_zero_or_pos origH with h0 | hpos
  · simp [h0]
  · have hne : (0 : Rat) < (origH : Rat) := by exact_mod_cast hpos
    calc (origH : Rat) * resizeScale origW origH w h
        ≤ (origH : Rat) * ((h : Rat) / (origH : Rat)) := by
          exact mul_le_mul_of_nonneg_left (rmin_le_right _ _) hne.le
      _ = (h : Rat) := by field_simp

theorem resizeClip_size (c : Clip) (w h : Nat) :
    (resizeClip c w h).width = w ∧ (resizeClip c w h).height = h ∧
    (resizeClip c w h).innerW ≤ w ∧ (resizeClip c w h).innerH ≤ h := by
  refine ⟨rfl, rfl, ?_, ?_⟩
  · exact scaledDim_le _ _ _ (orig_mul_resizeScale_le_w c.width c.height w h)
  · exact scaledDim_le _ _ _ (orig_mul_resizeScale_le_h c.width c.height w h)

theorem buildPipeline_size (b : BuildEnv) (item : ImageItem) (w h : Nat) :
    (buildPipeline b item w h).width = w ∧
    (buildPipeline b item w h).height = h ∧
    (buildPipeline b item w h).innerW ≤ w ∧
    (buildPipeline b item w h).innerH ≤ h := by
  unfold buildPipeline
  obtain ⟨e1, e2, e3, e4⟩ := endStage_fields b item
    (startStage b item (overlayStage b item (effectStage b item
      { resizeClip { width := item.origW, height := item.origH } w h with
        duration := item.duration })))
  obtain ⟨s1, s2, s3, s4⟩ := startStage_fields b item
    (overlayStage b item (effectStage b item
      { resizeClip { width := item.origW, height := item.origH } w h with
        duration := item.duration }))
  obtain ⟨o1, o2, o3, o4⟩ := overlayStage_fields b item
    (effectStage b item
      { resizeClip { width := item.origW, height := item.origH } w h with
        duration := item.duration })
  obtain ⟨f1, f2, f3, f4⟩ := effectStage_fields b item
    { resizeClip { width := item.origW, height := item.origH } w h with
      duration := item.duration }
  obtain ⟨r1, r2, r3, r4⟩ :=
    resizeClip_size { width := item.origW, height := item.origH } w h
  refine ⟨?_, ?_, ?_, ?_⟩
  · rw [e1, s1, o1, f1]; exact r1
  · rw [e2, s2, o2, f2]; exact r2
  · rw [e3, s3, o3, f3]; exact r3
  · rw [e4, s4, o4, f4]; exact r4

theorem createImageClip_ok (b : BuildEnv) (item : ImageItem) (w h : Nat)
    (hb : fatalOk b = true) :
    createImageClip b item w h = .ok (buildPipeline b item w h) := by
  unfold fatalOk at hb
  simp only [Bool.and_eq_true] at hb
  unfold createImageClip
  simp [hb.1.1.1, hb.1.1.2, hb.1.2, hb.2]

theorem createImageClip_size (b : BuildEnv) (item : ImageItem) (w h : Nat)
    (c : Clip) (hc : createImageClip b item w h = .ok c) :
    c.width = w ∧ c.height = h ∧ c.innerW ≤ w ∧ c.innerH ≤ h := by
  unfold createImageClip at hc
  split_ifs at hc
  cases hc
  exact buildPipeline_size b item w h

theorem buildClipsFrom_sizes (builds : Nat → BuildEnv)
    (items : List ImageItem) (w h : Nat) :
    ∀ (i : Nat) (cs : List Clip),
      buildClipsFrom builds i items w h = .ok cs →
      ∀ c ∈ cs, c.width = w ∧ c.height = h := by
  induction items with
  | nil =>
    intro i cs hcs c hc
    simp only [buildClipsFrom] at hcs
    cases hcs
    simp at hc
  | cons item rest ih =>
    intro i cs hcs c hc
    simp only [buildClipsFrom] at hcs
    cases h1 : createImageClip (builds i) item w h with
    | error e => rw [h1] at hcs; cases hcs
    | ok c0 =>
      rw [h1] at hcs
      cases h2 : buildClipsFrom builds (i + 1) rest w h with
      | error e => rw [h2] at hcs; cases hcs
      | ok cs0 =>
        rw [h2] at hcs
        cases hcs
        rcases List.mem_cons.mp hc with hceq | hcmem
        · subst hceq
          obtain ⟨hw, hh, -, -⟩ := createImageClip_size _ _ _ _ _ h1
          exact ⟨hw, hh⟩
        · exact ih (i + 1) cs0 h2 c hcmem

theorem buildClipsFrom_ok (builds : Nat → BuildEnv)
    (items : List ImageItem) (w h : Nat)
    (hb : ∀ i, fatalOk (builds i) = true) :
    ∀ i : Nat, ∃ cs, buildClipsFrom builds i items w h = .ok cs := by
  induction items with
  | nil => intro i; exact ⟨[], rfl⟩
  | cons item rest ih =>
    intro i
    obtain ⟨cs, hcs⟩ := ih (i + 1)
    refine ⟨buildPipeline (builds i) item w h :: cs, ?_⟩
    simp only [buildClipsFrom]
    rw [createImageClip_ok _ _ _ _ (hb i), hcs]

theorem generateVideo_ok_of_nonempty (env : RenderEnv)
    (items : List ImageItem) (op a : String) (fr : Nat) (ov : Rat)
    (q : String) (hne : items ≠ []) :
    ∃ bres, generateVideo env items op a fr ov q = .ok bres := by
  have h1 : items.isEmpty = false := by simpa using hne
  simp only [generateVideo, h1, Bool.false_eq_true, if_false]
  cases hb : buildClips env.builds items (dimensionsFor a).1 (dimensionsFor a).2 with
  | error e => exact ⟨env.staleFileNonEmpty, rfl⟩
  | ok cs =>
    by_cases hc : env.concatOk
    · by_cases hw : env.writeOk
      · exact ⟨env.fileNonEmptyAfterWrite, by simp [hc, hw]⟩
      · exact ⟨env.fileNonEmptyAfterWrite, by simp [hc, hw]⟩
    · exact ⟨env.staleFileNonEmpty, by simp [hc]⟩

theorem applyEffect_unknown (c : Clip) (e : String)
    (h : e ∉ supportedEffects) : applyEffect c e = c := by
  simp only [supportedEffects, List.mem_cons, List.not_mem_nil, or_false] at h
  push_neg at h
  obtain ⟨h1, h2, h3, h4, h5, h6, h7, h8, h9, h10, h11, h12, h13, h14, h15, h16⟩ := h
  simp only [applyEffect, if_neg h1, if_neg h2, if_neg h3, if_neg h4, if_neg h5,
    if_neg h6, if_neg h7, if_neg h8, if_neg h9, if_neg h10, if_neg h11,
    if_neg h12, if_neg h13, if_neg h14, if_neg h15, if_neg h16]

theorem applyStartTransition_unknown (c : Clip) (e : String) (d : Rat)
    (h : e ∉ supportedStartTransitions) : applyStartTransition c e d = c := by
  simp only [supportedStartTransitions, List.mem_cons, List.not_mem_nil,
    or_false] at h
  push_neg at h
  obtain ⟨h1, h2, h3, h4, h5, h6, h7, h8, h9, h10, h11, h12⟩ := h
  simp only [applyStartTransition, if_neg h1, if_neg h2, if_neg h3, if_neg h4,
    if_neg h5, if_neg h6, if_neg h7, if_neg h8, if_neg h9, if_neg h10,
    if_neg h11, if_neg h12]

theorem applyEndTransition_unknown (c : Clip) (e : String) (d : Rat)
    (h : e ∉ supportedEndTransitions) : applyEndTransition c e d = c := by
  simp only [supportedEndTransitions, List.mem_cons, List.not_mem_nil,
    or_false] at h
  push_neg at h
  obtain ⟨h1, h2, h3, h4, h5, h6, h7, h8, h9, h10, h11, h12⟩ := h
  simp only [applyEndTransition, if_neg h1, if_neg h2, if_neg h3, if_neg h4,
    if_neg h5, if_neg h6, if_neg h7, if_neg h8, if_neg h9, if_neg h10,
    if_neg h11, if_neg h12]

theorem applyOverlayEffect_unknown (c : Clip) (e t : String)
    (h : e ∉ supportedOverlays) : applyOverlayEffect c e t = c := by
  unfold applyOverlayEffect
  by_cases h0 : e = "None"
  · simp [h0]
  · by_cases h1 : e = ""
    · simp [h0, h1]
    · simp [h0, h1, h]

theorem buildPipeline_effect_skip (b : BuildEnv) (item : ImageItem) (w h : Nat) :
    buildPipeline { b with effectFails := true } item w h =
      buildPipeline b { item with effect := "None" } w h := by
  by_cases he : item.effect = "None" <;>
    simp [buildPipeline, effectStage, overlayStage, startStage, endStage, he]

theorem buildPipeline_overlay_skip (b : BuildEnv) (item : ImageItem) (w h : Nat) :
    buildPipeline { b with overlayFails := true } item w h =
      buildPipeline b { item with overlayEffect := "None" } w h := by
  by_cases he : item.overlayEffect = "None" <;>
    simp [buildPipeline, effectStage, overlayStage, startStage, endStage, he]

theorem buildPipeline_start_skip (b : BuildEnv) (item : ImageItem) (w h : Nat) :
    buildPipeline { b with startFails := true } item w h =
      buildPipeline b { item with startTransition := "None" } w h := by
  by_cases he : item.startTransition = "None" <;>
    simp [buildPipeline, effectStage, overlayStage, startStage, endStage, he]

theorem buildPipeline_end_skip (b : BuildEnv) (item : ImageItem) (w h : Nat) :
    buildPipeline { b with endFails := true } item w h =
      buildPipeline b { item with endTransition := "None" } w h := by
  by_cases he : item.endTransition = "None" <;>
    simp [buildPipeline, effectStage, overlayStage, startStage, endStage, he]

theorem createImageClip_effect_skip (b : BuildEnv) (item : ImageItem) (w h : Nat) :
    createImageClip { b with effectFails := true } item w h =
      createImageClip b { item with effect := "None" } w h := by
  unfold createImageClip
  rw [buildPipeline_effect_skip]

theorem createImageClip_overlay_skip (b : BuildEnv) (item : ImageItem) (w h : Nat) :
    createImageClip { b with overlayFails := true } item w h =
      createImageClip b { item with overlayEffect := "None" } w h := by
  unfold createImageClip
  rw [buildPipeline_overlay_skip]

theorem createImageClip_start_skip (b : BuildEnv) (item : ImageItem) (w h : Nat) :
    createImageClip { b with startFails := true } item w h =
      createImageClip b { item with startTransition := "None" } w h := by
  unfold createImageClip
  rw [buildPipeline_start_skip]

theorem createImageClip_end_skip (b : BuildEnv) (item : ImageItem) (w h : Nat) :
    createImageClip { b with endFails := true } item w h =
      createImageClip b { item with endTransition := "None" } w h := by
  unfold createImageClip
  rw [buildPipeline_end_skip]

/-! ### Claim theorems -/

/-- C1: for every supported aspect-ratio preset, every clip returned by
`_create_image_clip` has pixel dimensions exactly equal to the target of
the preset, whatever the pixel size and aspect ratio of the source image
(the letterboxed inner image always fits inside the canvas), and
consequently every clip in the list fed to concatenation has those same
dimensions. -/
theorem c1_letterbox_forces_preset_dimensions :
    ∀ (ar : String) (w h : Nat), aspectRatios ar = some (w, h) →
      (∀ (b : BuildEnv) (item : ImageItem) (c : Clip),
        createImageClip b item w h = Except.ok c →
        (c.width, c.height) = (w, h) ∧ c.innerW ≤ w ∧ c.innerH ≤ h) ∧
      (∀ (builds : Nat → BuildEnv) (items : List ImageItem) (cs : List Clip),
        buildClips builds items w h = Except.ok cs →
        ∀ c ∈ cs, (c.width, c.height) = (w, h)) := by
  intro ar w h _
  constructor
  · intro b item c hc
    obtain ⟨h1, h2, h3, h4⟩ := createImageClip_size b item w h c hc
    exact ⟨by rw [h1, h2], h3, h4⟩
  · intro builds items cs hcs c hc
    obtain ⟨h1, h2⟩ := buildClipsFrom_sizes builds items w h 0 cs hcs c hc
    rw [h1, h2]

/-- Witness for C1: a square 100x100 source letterboxed into the 9:16
preset (1080x1920) gives a clip of exactly 1080x1920 with the scaled
image (1080x1080) inside the canvas. -/
theorem c1_witness :
    ((Clip.mk 1080 1920 0 420 1080 1080 3
        [VideoOp.fadein 1, VideoOp.fadeout 1]).width,
     (Clip.mk 1080 1920 0 420 1080 1080 3
        [VideoOp.fadein 1, VideoOp.fadeout 1]).height) = (1080, 1920) ∧
    (Clip.mk 1080 1920 0 420 1080 1080 3
        [VideoOp.fadein 1, VideoOp.fadeout 1]).innerW ≤ 1080 ∧
    (Clip.mk 1080 1920 0 420 1080 1080 3
        [VideoOp.fadein 1, VideoOp.fadeout 1]).innerH ≤ 1920 :=
  (c1_letterbox_forces_preset_dimensions "9:16" 1080 1920 (by decide)).1 {}
    { filepath := "a.jpg", origW := 100, origH := 100 } _ (by
      simp only [createImageClip, buildPipeline, effectStage, overlayStage,
        startStage, endStage, applyStartTransition, applyEndTransition,
        resizeClip, resizeScale, scaledDim, rmin, rat_floor_int]
      norm_num
      rw [if_neg (show ¬(("Fade In" : String) = "None") from by decide),
        if_neg (show ¬(("Fade Out" : String) = "None") from by decide)]
      norm_num
      decide)

/-- C4: a failing effect, overlay, start-transition or end-transition
stage is skipped: `_create_image_clip` behaves exactly as if that stage
had been absent (the clip proceeds unmodified from before the stage),
the build still succeeds whenever the fatal stages succeed, and hence
the whole clip-building loop succeeds for the remaining images too, so
no stage failure ever reaches the caller as an error. -/
theorem c4_cosmetic_stage_failure_skipped :
    ∀ (b : BuildEnv) (item : ImageItem) (w h : Nat),
      (createImageClip { b with effectFails := true } item w h =
        createImageClip b { item with effect := "None" } w h) ∧
      (createImageClip { b with overlayFails := true } item w h =
        createImageClip b { item with overlayEffect := "None" } w h) ∧
      (createImageClip { b with startFails := true } item w h =
        createImageClip b { item with startTransition := "None" } w h) ∧
      (createImageClip { b with endFails := true } item w h =
        createImageClip b { item with endTransition := "None" } w h) ∧
      (fatalOk b = true →
        createImageClip b item w h = Except.ok (buildPipeline b item w h)) ∧
      (∀ (builds : Nat → BuildEnv) (items : List ImageItem),
        (∀ i, fatalOk (builds i) = true) →
        ∃ cs, buildClips builds items w h = Except.ok cs) :=
  fun b item w h =>
    ⟨createImageClip_effect_skip b item w h,
     createImageClip_overlay_skip b item w h,
     createImageClip_start_skip b item w h,
     createImageClip_end_skip b item w h,
     createImageClip_ok b item w h,
     fun builds items hb => buildClipsFrom_ok builds items w h hb 0⟩

/-- Witness for C4: a concrete item with a Sepia effect whose effect
stage raises builds the same clip as the item with no effect, and the
build and the loop still succeed. -/
theorem c4_witness :
    (createImageClip { effectFails := true }
        { filepath := "a.jpg", effect := "Sepia" } 1920 1080 =
      createImageClip {} { filepath := "a.jpg", effect := "None" }
        1920 1080) ∧
    createImageClip {} { filepath := "a.jpg", effect := "Sepia" } 1920 1080 =
      Except.ok (buildPipeline {} { filepath := "a.jpg", effect := "Sepia" }
        1920 1080) ∧
    ∃ cs, buildClips (fun _ => {})
        [{ filepath := "a.jpg", effect := "Sepia" }] 1920 1080 =
      Except.ok cs := by
  obtain ⟨he, ho, hs, hd, hok, hloop⟩ :=
    c4_cosmetic_stage_failure_skipped {}
      { filepath := "a.jpg", effect := "Sepia" } 1920 1080
  exact ⟨he, hok rfl, hloop (fun _ => {})
    [{ filepath := "a.jpg", effect := "Sepia" }] (fun _ => rfl)⟩

/-- C5: any effect, start-transition, end-transition or overlay name
outside the supported enumeration (including "None") leaves the clip
unchanged; the dispatch functions are total, so they never raise. -/
theorem c5_unknown_name_is_identity :
    ∀ (c : Clip) (name : String) (d : Rat) (txt : String),
      (name ∉ supportedEffects → applyEffect c name = c) ∧
      (name ∉ supportedStartTransitions → applyStartTransition c name d = c) ∧
      (name ∉ supportedEndTransitions → applyEndTransition c name d = c) ∧
      (name ∉ supportedOverlays → applyOverlayEffect c name txt = c) :=
  fun c name d txt =>
    ⟨applyEffect_unknown c name,
     applyStartTransition_unknown c name d,
     applyEndTransition_unknown c name d,
     applyOverlayEffect_unknown c name txt⟩

/-- Witness for C5: the name "None" is outside all four enumerations and
all four dispatchers return the input clip unchanged on it. -/
theorem c5_witness :
    applyEffect { width := 1920, height := 1080 } "None" =
      { width := 1920, height := 1080 } ∧
    applyStartTransition { width := 1920, height := 1080 } "None" 1 =
      { width := 1920, height := 1080 } ∧
    applyEndTransition { width := 1920, height := 1080 } "None" 1 =
      { width := 1920, height := 1080 } ∧
    applyOverlayEffect { width := 1920, height := 1080 } "None" "" =
      { width := 1920, height := 1080 } := by
  obtain ⟨h1, h2, h3, h4⟩ :=
    c5_unknown_name_is_identity { width := 1920, height := 1080 } "None" 1 ""
  exact ⟨h1 (by decide), h2 (by decide), h3 (by decide), h4 (by decide)⟩

theorem rmin_one_bounds (x : Rat) (hx : 0 ≤ x) :
    0 ≤ rmin 1 x ∧ rmin 1 x ≤ 1 := by
  unfold rmin
  split_ifs with h
  · exact ⟨by norm_num, le_refl 1⟩
  · exact ⟨hx, (not_le.mp h).le⟩

theorem rmax_hundredth_bounds (x : Rat) (hx1 : x ≤ 1) :
    1/100 ≤ rmax (1/100) x ∧ rmax (1/100) x ≤ 1 := by
  unfold rmax
  split_ifs with h
  · exact ⟨le_refl _, by norm_num⟩
  · exact ⟨(not_le.mp h).le, hx1⟩

theorem imageLoopSteps_getLast (n : Nat) (hn : 1 ≤ n) :
    (imageLoopSteps n).getLast? = some (3 * n) := by
  cases n with
  | zero => omega
  | succ m =>
    show (imageLoopSteps m ++ [3*m+1, 3*m+2, 3*m+3]).getLast? = some (3 * (m+1))
    rw [List.getLast?_append_cons]
    have h33 : 3 * (m + 1) = 3 * m + 3 := by omega
    rw [h33]
    rfl

/-- C2 counterexample: the code performs no clamping of the transition
window.  With clip duration 2, configured window 4 and sampling time
t = 1 (inside the clip), the "Zoom In" start-transition scale computed
by the code is 1/4, while the clamped-window behaviour the claim asserts
would give 1/2. -/
theorem c2_counterexample :
    zoomInScale 4 1 ≠ zoomInScaleClamped 2 4 1 ∧
    (0 : Rat) < 4 ∧ (0 : Rat) ≤ 1 ∧ (1 : Rat) < 2 ∧ (2 : Rat) < 4 := by
  refine ⟨?_, by norm_num, by norm_num, by norm_num, by norm_num⟩
  simp only [zoomInScale, zoomInScaleClamped, rmin]
  norm_num

/-- C2 (amended): the transition code never clamps the configured window
to the clip duration (the window is used as configured, so an over-long
window merely yields a transition that never completes).  Nevertheless,
for every window duration d greater than 0 and every sampling time t in
[0, clipDuration), the only divisor used is d, which is nonzero, and
every transition progress/scale/angle formula of
`_apply_start_transition` and `_apply_end_transition` (and of the
moviepy fades they call) stays in its nominal range: [0, 1] for zooms,
wipes and fades, [1/100, 1] for expand/shrink, [0, 360] for the
rotations — never negative, never inverted. -/
theorem c2_amended_window_not_clamped_but_safe :
    ∀ (cd d t : Rat), 0 < d → 0 ≤ t → t < cd →
      d ≠ 0 ∧
      (0 ≤ zoomInScale d t ∧ zoomInScale d t ≤ 1) ∧
      (1/100 ≤ expandScale d t ∧ expandScale d t ≤ 1) ∧
      (0 ≤ wipeInProgress d t ∧ wipeInProgress d t ≤ 1) ∧
      (0 ≤ rotateInAngle d t ∧ rotateInAngle d t ≤ 360) ∧
      (0 ≤ zoomOutScale cd d t ∧ zoomOutScale cd d t ≤ 1) ∧
      (1/100 ≤ shrinkScale cd d t ∧ shrinkScale cd d t ≤ 1) ∧
      (0 ≤ wipeOutProgress cd d t ∧ wipeOutProgress cd d t ≤ 1) ∧
      (0 ≤ rotateOutAngle cd d t ∧ rotateOutAngle cd d t ≤ 360) ∧
      (0 ≤ fadeinFactor d t ∧ fadeinFactor d t ≤ 1) ∧
      (0 ≤ fadeoutFactor cd d t ∧ fadeoutFactor cd d t ≤ 1) := by
  intro cd d t hd ht0 htc
  have hstart : 0 ≤ t / d := div_nonneg ht0 hd.le
  have hend : 0 ≤ (cd - t) / d := div_nonneg (by linarith) hd.le
  refine ⟨ne_of_gt hd, ?_, ?_, ?_, ?_, ?_, ?_, ?_, ?_, ?_, ?_⟩
  · unfold zoomInScale
    split_ifs
    · exact rmin_one_bounds _ hstart
    · exact ⟨by norm_num, le_refl 1⟩
  · unfold expandScale
    split_ifs
    · exact rmax_hundredth_bounds _ (rmin_one_bounds _ hstart).2
    · exact ⟨by norm_num, le_refl 1⟩
  · unfold wipeInProgress
    split_ifs
    · exact rmin_one_bounds _ hstart
    · exact ⟨by norm_num, le_refl 1⟩
  · unfold rotateInAngle
    split_ifs
    · obtain ⟨hm0, hm1⟩ := rmin_one_bounds _ hstart
      constructor <;> nlinarith
    · exact ⟨le_refl 0, by norm_num⟩
  · unfold zoomOutScale
    split_ifs
    · exact rmin_one_bounds _ hend
    · exact ⟨by norm_num, le_refl 1⟩
  · unfold shrinkScale
    split_ifs
    · exact rmax_hundredth_bounds _ (rmin_one_bounds _ hend).2
    · exact ⟨by norm_num, le_refl 1⟩
  · unfold wipeOutProgress
    split_ifs
    · exact rmin_one_bounds _ hend
    · exact ⟨by norm_num, le_refl 1⟩
  · unfold rotateOutAngle
    split_ifs with hwin
    · have hx : 0 ≤ (t - (cd - d)) / d := div_nonneg (by linarith) hd.le
      obtain ⟨hm0, hm1⟩ := rmin_one_bounds _ hx
      constructor <;> nlinarith
    · exact ⟨le_refl 0, by norm_num⟩
  · unfold fadeinFactor
    split_ifs with hwin
    · exact ⟨hstart, (div_le_one hd).mpr hwin.le⟩
    · exact ⟨by norm_num, le_refl 1⟩
  · unfold fadeoutFactor
    split_ifs with hwin
    · exact ⟨hend, (div_le_one hd).mpr hwin.le⟩
    · exact ⟨by norm_num, le_refl 1⟩

/-- Witness for C2 (amended): at clip duration 2, window 4 and t = 1 the
hypotheses hold and the Zoom In scale is within [0, 1]. -/
theorem c2_witness :
    (0 : Rat) < 4 ∧ (0 ≤ zoomInScale 4 1 ∧ zoomInScale 4 1 ≤ 1) :=
  ⟨by norm_num,
   (c2_amended_window_not_clamped_but_safe 2 4 1 (by norm_num) (by norm_num)
     (by norm_num)).2.1⟩

/-- C3 counterexample: with the single image file missing and no stale
file at the output path, `generate_video` returns False — it does not
propagate any error to the caller, refuting the claimed propagation. -/
theorem c3_counterexample :
    generateVideo
      { builds := fun _ => { fileExists := false }, staleFileNonEmpty := false }
      [{ filepath := "missing.jpg" }] "out.mp4" "16:9" 30 (1/2) "High" =
      Except.ok false := by
  rfl

/-- C3 (amended): a missing image file aborts the whole render at the
first failing image with an error message naming the image index and
path, and the write step is never reached (so the render itself creates
no output file and a pre-existing stale file is untouched); but instead
of propagating that error, `generate_video` swallows it and returns the
result of the output-path check: False when no non-empty file already
exists at the output path, True when a stale non-empty one does. -/
theorem c3_abort_without_propagation :
    (∀ (builds : Nat → BuildEnv) (item : ImageItem) (rest : List ImageItem)
      (w h : Nat),
      (builds 0).fileExists = false →
      buildClips builds (item :: rest) w h =
        Except.error ("Error processing image " ++ toString (0 + 1) ++ ": " ++
          ("Error processing image: Image file not found: " ++
            item.filepath))) ∧
    (∀ (env : RenderEnv) (items : List ImageItem) (op a : String) (fr : Nat)
      (ov : Rat) (q : String) (e : String),
      buildClips env.builds items (dimensionsFor a).1 (dimensionsFor a).2 =
        Except.error e →
      generateVideo env items op a fr ov q =
        Except.ok env.staleFileNonEmpty ∧
      reachesWrite env items a = false) := by
  constructor
  · intro builds item rest w h hb
    simp [buildClips, buildClipsFrom, createImageClip, hb]
  · intro env items op a fr ov q e he
    cases items with
    | nil => simp [buildClips, buildClipsFrom] at he
    | cons hd tl =>
      constructor
      · have h1 : (hd :: tl).isEmpty = false := rfl
        simp only [generateVideo, h1, Bool.false_eq_true, if_false]
        rw [he]
      · simp [reachesWrite, he, Except.toBool]

/-- C6: if the encoder write raises but a non-empty file exists at the
output path afterwards, `generate_video` reports success (True); the
underlying error is only logged. -/
theorem c6_partial_write_success :
    ∀ (env : RenderEnv) (items : List ImageItem) (op a : String) (fr : Nat)
      (ov : Rat) (q : String),
      items ≠ [] →
      (∀ i, fatalOk (env.builds i) = true) →
      env.concatOk = true →
      env.writeOk = false →
      env.fileNonEmptyAfterWrite = true →
      generateVideo env items op a fr ov q = Except.ok true := by
  intro env items op a fr ov q hne hb hc hw hf
  have h1 : items.isEmpty = false := by simpa using hne
  obtain ⟨cs, hcs⟩ := buildClipsFrom_ok env.builds items (dimensionsFor a).1
    (dimensionsFor a).2 hb 0
  simp only [generateVideo, h1, Bool.false_eq_true, if_false]
  rw [show buildClips env.builds items (dimensionsFor a).1 (dimensionsFor a).2 =
    Except.ok cs from hcs]
  simp [hc, hw, hf]

/-- Witness for C6: one valid image, concatenation fine, the write step
raising, and a non-empty output file present afterwards gives True. -/
theorem c6_witness :
    generateVideo
      { builds := fun _ => {}, writeOk := false, fileNonEmptyAfterWrite := true }
      [{ filepath := "a.jpg" }] "out.mp4" "16:9" 30 (1/2) "High" =
      Except.ok true :=
  c6_partial_write_success _ _ _ _ _ _ _ (by simp) (fun _ => rfl) rfl rfl rfl

/-- C7 counterexample: in a successful two-image render the main-thread
step sequence is [0, 1, 2, 3, 4, 5, 6, 5, 6, 7, 14]; the sixth value 6
is followed by 5 at the concatenation update, so the reported
current_step values are not monotonically increasing, refuting the
monotonicity part of the claim (the total-step formula itself holds). -/
theorem c7_counterexample :
    ¬ List.Chain' (fun a b => a ≤ b) (mainThreadSteps 2) ∧
    totalSteps 2 = 2 * 2 + 10 := by
  constructor
  · intro hch
    have hlist : mainThreadSteps 2 = [0, 1, 2, 3, 4, 5, 6, 5, 6, 7, 14] := rfl
    rw [hlist] at hch
    simp [List.chain'_cons] at hch
  · rfl

/-- C7 (amended): `total_steps` is computed up front as
2 x imageCount + 10 (a fixed overhead for concatenation and encoding),
but the progress steps of one `generate_video` call are not
monotonically increasing: each image emits three unit increments, so the
image loop ends at step 3n, after which the concatenation update resets
the counter to 2n + 1 < 3n whenever the render has at least two
images. -/
theorem c7_total_steps_but_nonmonotonic :
    ∀ n : Nat, totalSteps n = 2 * n + 10 ∧
      (2 ≤ n → ¬ List.Chain' (fun a b => a ≤ b) (mainThreadSteps n)) := by
  intro n
  refine ⟨rfl, ?_⟩
  intro h2 hchain
  simp only [mainThreadSteps] at hchain
  have hch1 := hchain.tail
  simp only [List.tail_cons] at hch1
  obtain ⟨-, -, hlink⟩ := List.chain'_append.mp hch1
  have hlast : (imageLoopSteps n).getLast? = some (3 * n) :=
    imageLoopSteps_getLast n (by omega)
  have h3 := hlink (3 * n) (by rw [hlast]; rfl) (2 * n + 1) rfl
  omega

/-- Witness for C7 (amended): at n = 2 the total is 14 and the step
sequence is not monotone. -/
theorem c7_witness :
    totalSteps 2 = 2 * 2 + 10 ∧
    ¬ List.Chain' (fun a b => a ≤ b) (mainThreadSteps 2) :=
  ⟨(c7_total_steps_but_nonmonotonic 2).1,
   (c7_total_steps_but_nonmonotonic 2).2 (by decide)⟩

/-- C8: `transition_overlap` is accepted by `generate_video` but never
read anywhere in the render path, so two calls differing only in that
argument build the same clips and return the same result. -/
theorem c8_transition_overlap_unused :
    ∀ (env : RenderEnv) (items : List ImageItem) (op a : String) (fr : Nat)
      (ov ov2 : Rat) (q : String),
      generateVideo env items op a fr ov q =
        generateVideo env items op a fr ov2 q :=
  fun _ _ _ _ _ _ _ _ => rfl

/-- C9: `generate_video` raises the distinct "No images provided" error
exactly when the image sequence is empty — before any clip is built or
any file is touched — and never on a non-empty sequence. -/
theorem c9_empty_sequence_error_iff :
    ∀ (env : RenderEnv) (items : List ImageItem) (op a : String) (fr : Nat)
      (ov : Rat) (q : String),
      generateVideo env items op a fr ov q =
        Except.error "No images provided" ↔ items = [] := by
  intro env items op a fr ov q
  constructor
  · intro h
    cases items with
    | nil => rfl
    | cons hd tl =>
      obtain ⟨bres, hb⟩ :=
        generateVideo_ok_of_nonempty env (hd :: tl) op a fr ov q (by simp)
      rw [hb] at h
      simp at h
  · intro h
    subst h
    rfl

/-- Witness for C9: the empty sequence yields exactly the
"No images provided" error. -/
theorem c9_witness :
    generateVideo { builds := fun _ => {} } [] "out.mp4" "16:9" 30 (1/2)
      "High" = Except.error "No images provided" :=
  (c9_empty_sequence_error_iff { builds := fun _ => {} } [] "out.mp4" "16:9"
    30 (1/2) "High").mpr rfl

/-- C10: an aspect-ratio string outside the three presets does not make
`generate_video` raise: the dictionary lookup falls back to the default
1920x1080 dimensions, so the call behaves exactly like a "16:9" call and
returns a normal result on any non-empty sequence. -/
theorem c10_unknown_aspect_defaults :
    ∀ a : String, a ≠ "16:9" → a ≠ "9:16" → a ≠ "4:3" →
      dimensionsFor a = (1920, 1080) ∧
      ∀ (env : RenderEnv) (items : List ImageItem) (op : String) (fr : Nat)
        (ov : Rat) (q : String),
        generateVideo env items op a fr ov q =
          generateVideo env items op "16:9" fr ov q ∧
        (items ≠ [] →
          ∃ bres, generateVideo env items op a fr ov q = Except.ok bres) := by
  intro a h1 h2 h3
  have hd : dimensionsFor a = (1920, 1080) := by
    simp [dimensionsFor, aspectRatios, h1, h2, h3]
  refine ⟨hd, ?_⟩
  intro env items op fr ov q
  have hd2 : dimensionsFor a = dimensionsFor "16:9" := by rw [hd]; rfl
  constructor
  · simp only [generateVideo, hd2]
  · intro hne
    exact generateVideo_ok_of_nonempty env items op a fr ov q hne

/-- Witness for C10: the unsupported preset "1:1" renders at 1920x1080,
identically to "16:9", and returns a normal result. -/
theorem c10_witness :
    dimensionsFor "1:1" = (1920, 1080) ∧
    generateVideo { builds := fun _ => {} } [{ filepath := "a.jpg" }]
        "o.mp4" "1:1" 30 (1/2) "High" =
      generateVideo { builds := fun _ => {} } [{ filepath := "a.jpg" }]
        "o.mp4" "16:9" 30 (1/2) "High" ∧
    ∃ bres, generateVideo { builds := fun _ => {} } [{ filepath := "a.jpg" }]
        "o.mp4" "1:1" 30 (1/2) "High" = Except.ok bres := by
  obtain ⟨hd, hrest⟩ :=
    c10_unknown_aspect_defaults "1:1" (by decide) (by decide) (by decide)
  obtain ⟨heq, hok⟩ := hrest { builds := fun _ => {} } [{ filepath := "a.jpg" }]
    "o.mp4" 30 (1/2) "High"
  exact ⟨hd, heq, hok (by simp)⟩

/-- Witness for C3 (amended): one missing image aborts the build with a
message naming index 1 and the path, and `generate_video` returns False
with the write step never reached. -/
theorem c3_witness :
    buildClips (fun _ => { fileExists := false })
        [{ filepath := "missing.jpg" }] 1920 1080 =
      Except.error ("Error processing image " ++ toString (0 + 1) ++ ": " ++
        ("Error processing image: Image file not found: " ++ "missing.jpg")) ∧
    (generateVideo
        { builds := fun _ => { fileExists := false },
          staleFileNonEmpty := false }
        [{ filepath := "missing.jpg" }] "out.mp4" "16:9" 30 (1/2) "High" =
      Except.ok false ∧
     reachesWrite
        { builds := fun _ => { fileExists := false },
          staleFileNonEmpty := false }
        [{ filepath := "missing.jpg" }] "16:9" = false) := by
  constructor
  · exact c3_abort_without_propagation.1 (fun _ => { fileExists := false })
      { filepath := "missing.jpg" } [] 1920 1080 rfl
  · exact c3_abort_without_propagation.2
      { builds := fun _ => { fileExists := false }, staleFileNonEmpty := false }
      [{ filepath := "missing.jpg" }] "out.mp4" "16:9" 30 (1/2) "High" _ rfl
